import Mathlib

/-!
Shallow embedding of the graph-based workflow code of this repository.

The node functions, reducers and routers are translated from
src/langGraph/langGraph.py and src/output_parser/output_parser.py.
The graph executor itself (StateGraph compilation and invocation) is not
part of the repository sources; it is modelled from the design
specification (sections 3, 4.3, 4.4 and 7).
-/

/-- Custom reducer from langGraph.py: always increment by 1 regardless of
the new value. -/
def increment_counter (old : Int) (new : Int) : Int := old + 1

/-- The list reducer attached to the history fields in langGraph.py: the
Python operator add on lists, i.e. concatenation with old elements first. -/
def listAdd (old : List String) (new : List String) : List String := old ++ new

/-- State structure of the sentiment graph (AgentState in langGraph.py). -/
structure AgentState where
  input : String
  sentiment : String
  response : String
  sentiment_history : List String
  response_history : List String
  iteration_count : Int
deriving DecidableEq, Repr

/-- A partial update produced by a node of the sentiment graph: each field
is optional, mirroring a Python dict containing a subset of the keys. -/
structure AgentUpdate where
  input : Option String := none
  sentiment : Option String := none
  response : Option String := none
  sentiment_history : Option (List String) := none
  response_history : Option (List String) := none
  iteration_count : Option (Int) := none
deriving DecidableEq, Repr

/-- Merge a partial update into the state using the reducers declared on
AgentState: input, sentiment and response are replaced; the two history
fields use the list-concatenation reducer; iteration_count uses
increment_counter. -/
def applyAgentUpdate (s : AgentState) (u : AgentUpdate) : AgentState :=
  { input := u.input.getD s.input,
    sentiment := u.sentiment.getD s.sentiment,
    response := u.response.getD s.response,
    sentiment_history :=
      match u.sentiment_history with
      | none => s.sentiment_history
      | some v => listAdd s.sentiment_history v,
    response_history :=
      match u.response_history with
      | none => s.response_history
      | some v => listAdd s.response_history v,
    iteration_count :=
      match u.iteration_count with
      | none => s.iteration_count
      | some v => increment_counter s.iteration_count v }

/-- Python lowercase conversion, applied characterwise to the character
list of the string. -/
def pyLower (s : String) : String := String.mk (s.data.map Char.toLower)

/-- Python strip: remove leading and trailing whitespace characters. -/
def pyStrip (s : String) : String :=
  String.mk (((s.data.dropWhile Char.isWhitespace).reverse.dropWhile
    Char.isWhitespace).reverse)

/-- Python substring test (the expression word in input_text). -/
def containsWord (text : String) (w : String) : Bool :=
  decide (w.data <:+: text.data)

def positive_words : List String :=
  ["good", "great", "happy", "excellent", "wonderful", "love"]

def negative_words : List String :=
  ["bad", "sad", "terrible", "awful", "hate", "poor"]

/-- Count of the words of a list occurring in a text, as in the Python
expression sum of 1 for word in words if word in text. -/
def countContained (words : List String) (text : String) : Nat :=
  (words.filter (fun w => containsWord text w)).length

/-- Node 1 of the sentiment graph: classify the lowercased input and
return a partial update for sentiment, sentiment_history and
iteration_count. -/
def analyze_sentiment (state : AgentState) : AgentUpdate :=
  let input_text := pyLower state.input
  let positive_count := countContained positive_words input_text
  let negative_count := countContained negative_words input_text
  let sentiment :=
    if positive_count > negative_count then "positive"
    else if negative_count > positive_count then "negative"
    else "neutral"
  { sentiment := some sentiment,
    sentiment_history := some [sentiment],
    iteration_count := some 1 }

def positiveResponse : String :=
  "That\x27s wonderful! I\x27m glad to hear positive feedback. How can I help you further?"

def negativeResponse : String :=
  "I understand your frustration. Let me help you resolve this issue."

def neutralResponse : String :=
  "I see. Could you provide more details so I can assist you better?"

/-- Node 2a of the sentiment graph. -/
def handle_positive (state : AgentState) : AgentUpdate :=
  { response := some positiveResponse,
    response_history := some [positiveResponse] }

/-- Node 2b of the sentiment graph. -/
def handle_negative (state : AgentState) : AgentUpdate :=
  { response := some negativeResponse,
    response_history := some [negativeResponse] }

/-- Node 2c of the sentiment graph. -/
def handle_neutral (state : AgentState) : AgentUpdate :=
  { response := some neutralResponse,
    response_history := some [neutralResponse] }

/-- Node 3 of the sentiment graph: returns the whole state as its update
(the Python function returns state unchanged, i.e. a dict containing every
field). -/
def check_need_followup (state : AgentState) : AgentUpdate :=
  { input := some state.input,
    sentiment := some state.sentiment,
    response := some state.response,
    sentiment_history := some state.sentiment_history,
    response_history := some state.response_history,
    iteration_count := some state.iteration_count }

/-- Conditional router after analyze_sentiment: returns the sentiment
field as the label. -/
def route_by_sentiment (state : AgentState) : String := state.sentiment

/-- Conditional router after check_followup: both branches of the Python
code return the label end. -/
def route_by_iteration (state : AgentState) : String :=
  let max_iterations : Int := 2
  if state.iteration_count ≥ max_iterations then "end" else "end"

/-- Modelled from the spec: node keys, with the two reserved keys START
and END represented as dedicated constructors (spec section 3, NodeKey). -/
inductive NodeKey where
  | START : NodeKey
  | END : NodeKey
  | node : String → NodeKey
deriving DecidableEq, Repr, BEq

/-- Modelled from the spec: a conditional edge carries a router, the
declared codomain of the router (the labels it can legally return, from
the Literal annotation in the source), and the label-to-node mapping
(spec section 3, Edge). -/
structure CondEdge (σ : Type) where
  router : σ → String
  routerLabels : List String
  labelToNode : List (String × NodeKey)

/-- Modelled from the spec: an outgoing edge is either direct or
conditional (spec section 3, Edge). -/
inductive EdgeTarget (σ : Type) where
  | direct : NodeKey → EdgeTarget σ
  | conditional : CondEdge σ → EdgeTarget σ

/-- Modelled from the spec: a graph definition composes the node registry,
the edge table, the entry key and the reducer registry; the reducer
registry is represented by the function merging a partial update into a
state snapshot (spec sections 3 and 9). -/
structure GraphDefinition (σ υ : Type) where
  nodes : List (String × (σ → υ))
  edges : List (NodeKey × EdgeTarget σ)
  entry : NodeKey
  mergeUpdate : σ → υ → σ

def lookupEdge {σ υ : Type} (g : GraphDefinition σ υ) (k : NodeKey) :
    Option (EdgeTarget σ) :=
  match g.edges.find? (fun p => p.1 == k) with
  | none => none
  | some p => some p.2

def lookupNode {σ υ : Type} (g : GraphDefinition σ υ) (name : String) :
    Option (σ → υ) :=
  match g.nodes.find? (fun p => p.1 == name) with
  | none => none
  | some p => some p.2

/-- Modelled from the spec: the outcome of processing one node of the
traversal (spec section 4.4, one iteration of the loop). -/
inductive StepOutcome (σ : Type) where
  | routingError : String → StepOutcome σ
  | definitionError : NodeKey → StepOutcome σ
  | next : NodeKey → σ → List String → StepOutcome σ

/-- Modelled from the spec: resolve a router label through the
label-to-node mapping of a conditional edge; an unmapped label is a
routing error (spec section 4.3). -/
def resolveLabel {σ : Type} (map : List (String × NodeKey)) (label : String)
    (s : σ) (vis : List String) : StepOutcome σ :=
  match map.find? (fun p => p.1 == label) with
  | some pr => StepOutcome.next pr.2 s vis
  | none => StepOutcome.routingError label

/-- Modelled from the spec: process the current node: invoke its step
function when it is a step node, merge the partial update, then resolve
the outgoing edge, a conditional edge consulting its router on the merged
snapshot (spec section 4.4, steps 2 and 3). -/
def execStep {σ υ : Type} (g : GraphDefinition σ υ) (cur : NodeKey) (s : σ) :
    StepOutcome σ :=
  match lookupEdge g cur with
  | none => StepOutcome.definitionError cur
  | some (EdgeTarget.direct nxt) =>
    match cur with
    | NodeKey.node name =>
      match lookupNode g name with
      | none => StepOutcome.definitionError cur
      | some f => StepOutcome.next nxt (g.mergeUpdate s (f s)) [name]
    | _ => StepOutcome.next nxt s []
  | some (EdgeTarget.conditional e) =>
    match cur with
    | NodeKey.node name =>
      match lookupNode g name with
      | none => StepOutcome.definitionError cur
      | some f =>
        resolveLabel e.labelToNode (e.router (g.mergeUpdate s (f s)))
          (g.mergeUpdate s (f s)) [name]
    | _ => resolveLabel e.labelToNode (e.router s) s []

/-- Modelled from the spec: the result of one invocation; the done
constructor carries the ordered list of visited step-node names and the
final snapshot, and StepBudgetExceeded is a distinct outcome (spec
sections 4.4 and 7). -/
inductive ExecResult (σ : Type) where
  | done : List String → σ → ExecResult σ
  | stepBudgetExceeded : List String → σ → ExecResult σ
  | routingError : String → ExecResult σ
  | definitionError : NodeKey → ExecResult σ
deriving Repr

/-- Modelled from the spec: continue the traversal after one node has
been processed: errors abort, otherwise the loop proceeds at the resolved
next node with the visited names pushed onto the trace accumulator (spec
section 4.4). -/
def stepCont {σ : Type} (recur : NodeKey → σ → List String → ExecResult σ)
    (tr : List String) : StepOutcome σ → ExecResult σ
  | StepOutcome.routingError l => ExecResult.routingError l
  | StepOutcome.definitionError k => ExecResult.definitionError k
  | StepOutcome.next nxt s' vis => recur nxt s' (vis ++ tr)

/-- Modelled from the spec: the traversal loop with a step budget; the
trace accumulator tr holds the visited node names in reverse (spec
section 4.4). -/
def execFrom {σ υ : Type} (g : GraphDefinition σ υ) (fuel : Nat)
    (cur : NodeKey) (s : σ) (tr : List String) : ExecResult σ :=
  if cur = NodeKey.END then ExecResult.done tr.reverse s
  else
    match fuel with
    | 0 => ExecResult.stepBudgetExceeded tr.reverse s
    | fuel' + 1 => stepCont (execFrom g fuel') tr (execStep g cur s)

/-- Modelled from the spec: the sole entry point consumers call (spec
section 6). -/
def invoke {σ υ : Type} (g : GraphDefinition σ υ) (budget : Nat) (s : σ) :
    ExecResult σ :=
  execFrom g budget g.entry s []

/-- Modelled from the spec: a valid edge target is END or a registered
node name (spec section 7, ValidationError). -/
def targetValid (names : List String) (k : NodeKey) : Bool :=
  match k with
  | NodeKey.END => true
  | NodeKey.START => false
  | NodeKey.node n => names.contains n

/-- Modelled from the spec: validation checks that every edge target is
known and that every label of the declared codomain of a conditional
router has an entry in the label-to-node mapping (spec sections 4.3
and 7). -/
def validateGraph {σ υ : Type} (g : GraphDefinition σ υ) : Bool :=
  let names := g.nodes.map Prod.fst
  g.edges.all fun p =>
    match p.2 with
    | EdgeTarget.direct nxt => targetValid names nxt
    | EdgeTarget.conditional e =>
      e.routerLabels.all (fun l => (e.labelToNode.find? (fun q => q.1 == l)).isSome)
        && e.labelToNode.all (fun q => targetValid names q.2)

/-- Modelled from the spec: compilation either produces the executor or
fails with a validation error, before any invocation (spec sections 3
and 7). -/
inductive CompileResult (σ υ : Type) where
  | compiled : GraphDefinition σ υ → CompileResult σ υ
  | validationError : CompileResult σ υ

/-- Modelled from the spec: compile validates the blueprint (spec
section 2, Compiled Executor). -/
def compileGraph {σ υ : Type} (g : GraphDefinition σ υ) : CompileResult σ υ :=
  if validateGraph g then CompileResult.compiled g else CompileResult.validationError

def sentimentEdgeMap : List (String × NodeKey) :=
  [("positive", NodeKey.node "handle_positive"),
   ("negative", NodeKey.node "handle_negative"),
   ("neutral", NodeKey.node "handle_neutral")]

def followupEdgeMap : List (String × NodeKey) :=
  [("end", NodeKey.END),
   ("reanalyze", NodeKey.node "analyze_sentiment")]

/-- The sentiment graph wired exactly as in create_sentiment_graph of
langGraph.py. -/
def create_sentiment_graph : GraphDefinition AgentState AgentUpdate :=
  { nodes :=
      [("analyze_sentiment", analyze_sentiment),
       ("handle_positive", handle_positive),
       ("handle_negative", handle_negative),
       ("handle_neutral", handle_neutral),
       ("check_followup", check_need_followup)],
    edges :=
      [(NodeKey.START, EdgeTarget.direct (NodeKey.node "analyze_sentiment")),
       (NodeKey.node "analyze_sentiment",
         EdgeTarget.conditional
           { router := route_by_sentiment,
             routerLabels := ["positive", "negative", "neutral"],
             labelToNode := sentimentEdgeMap }),
       (NodeKey.node "handle_positive", EdgeTarget.direct (NodeKey.node "check_followup")),
       (NodeKey.node "handle_negative", EdgeTarget.direct (NodeKey.node "check_followup")),
       (NodeKey.node "handle_neutral", EdgeTarget.direct (NodeKey.node "check_followup")),
       (NodeKey.node "check_followup",
         EdgeTarget.conditional
           { router := route_by_iteration,
             routerLabels := ["end", "reanalyze"],
             labelToNode := followupEdgeMap })],
    entry := NodeKey.START,
    mergeUpdate := applyAgentUpdate }

/-- The initial state built in run_graph_example of langGraph.py for a
given test input. -/
def initialAgentState (input : String) : AgentState :=
  { input := input, sentiment := "", response := "",
    sentiment_history := [], response_history := [], iteration_count := 0 }

/-- The Yes or No enumeration of output_parser.py. -/
inductive YesNoEnum where
  | YES : YesNoEnum
  | NO : YesNoEnum
deriving DecidableEq, Repr

/-- The string value of an enum member, as in Python answer.value. -/
def yesNoValue (e : YesNoEnum) : String :=
  match e with
  | YesNoEnum.YES => "yes"
  | YesNoEnum.NO => "no"

/-- The pydantic model YesNoResponse of output_parser.py. -/
structure YesNoResponse where
  answer : YesNoEnum
deriving DecidableEq, Repr

/-- The field validator parse_answer of YesNoResponse in output_parser.py,
on string inputs: strip and lowercase, match affirmative forms, then
negative forms, and default to NO otherwise. -/
def parse_answer (v : String) : YesNoEnum :=
  let v_lower := pyLower (pyStrip v)
  if v_lower ∈ ["yes", "y", "true", "1"] then YesNoEnum.YES
  else if v_lower ∈ ["no", "n", "false", "0"] then YesNoEnum.NO
  else YesNoEnum.NO

/-- State structure of the question workflow (QuestionState in
output_parser.py). -/
structure QuestionState where
  question : String
  raw_response : String
  parsed_response : YesNoResponse
  action_taken : String
  result_message : String
deriving DecidableEq, Repr

/-- Node 1 of the question workflow: the internal chain invocation is an
external collaborator, represented by its outcome, either a parsed
YesNoResponse or the message of a raised exception; the try and except
blocks of the source become the two match arms. -/
def ask_question_node (chainResult : Except String YesNoResponse)
    (state : QuestionState) : QuestionState :=
  match chainResult with
  | Except.ok parsed_result =>
    { question := state.question,
      raw_response := yesNoValue parsed_result.answer,
      parsed_response := parsed_result,
      action_taken := "",
      result_message := "" }
  | Except.error e =>
    { question := state.question,
      raw_response := "error",
      parsed_response := { answer := YesNoEnum.NO },
      action_taken := "",
      result_message := "Error occurred: " ++ e }

/-- Conditional router of the question workflow. -/
def route_by_response (state : QuestionState) : String :=
  if state.parsed_response.answer = YesNoEnum.YES then "positive" else "negative"

/-- Node 2a of the question workflow. -/
def action_positive_node (state : QuestionState) : QuestionState :=
  { state with
    action_taken := "Positive Action Executed",
    result_message := "Great! The answer is YES. Proceeding with the affirmative workflow." }

/-- Node 2b of the question workflow. -/
def action_negative_node (state : QuestionState) : QuestionState :=
  { state with
    action_taken := "Negative Action Executed",
    result_message := "The answer is NO. Following the negative workflow path." }

/-- Node 3 of the question workflow. -/
def finalize_node (state : QuestionState) : QuestionState := state

/-- The question workflow wired as in create_question_workflow of
output_parser.py; QuestionState declares no reducers, so every field uses
the replace policy and merging a full-state update is replacement. The
chain collaborator is a parameter consulted by the ask_question node. -/
def create_question_workflow (chain : String → Except String YesNoResponse) :
    GraphDefinition QuestionState QuestionState :=
  { nodes :=
      [("ask_question", fun s => ask_question_node (chain s.question) s),
       ("action_positive", action_positive_node),
       ("action_negative", action_negative_node),
       ("finalize", finalize_node)],
    edges :=
      [(NodeKey.START, EdgeTarget.direct (NodeKey.node "ask_question")),
       (NodeKey.node "ask_question",
         EdgeTarget.conditional
           { router := route_by_response,
             routerLabels := ["positive", "negative"],
             labelToNode :=
               [("positive", NodeKey.node "action_positive"),
                ("negative", NodeKey.node "action_negative")] }),
       (NodeKey.node "action_positive", EdgeTarget.direct (NodeKey.node "finalize")),
       (NodeKey.node "action_negative", EdgeTarget.direct (NodeKey.node "finalize")),
       (NodeKey.node "finalize", EdgeTarget.direct NodeKey.END)],
    entry := NodeKey.START,
    mergeUpdate := fun _ new => new }

/-- The final state actually produced by the sentiment graph on the test
input of the spec scenario. -/
def c1FinalState : AgentState :=
  { input := "This is a great product!", sentiment := "positive",
    response := positiveResponse,
    sentiment_history := ["positive", "positive"],
    response_history := [positiveResponse, positiveResponse],
    iteration_count := 2 }

/-- A one-node graph whose conditional edge always routes back to the
same node: the smallest graph with a cycle whose router always routes
back into the cycle. -/
def loopGraph : GraphDefinition Int Int :=
  { nodes := [("a", fun s => s)],
    edges := [(NodeKey.node "a",
      EdgeTarget.conditional
        { router := fun _ => "loop", routerLabels := ["loop"],
          labelToNode := [("loop", NodeKey.node "a")] })],
    entry := NodeKey.node "a",
    mergeUpdate := fun _ new => new }

/-- A conditional edge whose mapping omits the label y although the
router codomain declares it. -/
def brokenEdge : CondEdge Int :=
  { router := fun _ => "x", routerLabels := ["x", "y"],
    labelToNode := [("x", NodeKey.END)] }

/-- A graph definition containing brokenEdge. -/
def brokenGraph : GraphDefinition Int Int :=
  { nodes := [("a", fun s => s)],
    edges := [(NodeKey.START, EdgeTarget.direct (NodeKey.node "a")),
              (NodeKey.node "a", EdgeTarget.conditional brokenEdge)],
    entry := NodeKey.START,
    mergeUpdate := fun _ new => new }

/-! ## Helper lemmas -/

lemma route_by_iteration_eq (s : AgentState) : route_by_iteration s = "end" := by
  simp only [route_by_iteration]
  split <;> rfl

lemma execStep_check_followup_eq (s : AgentState) :
    execStep create_sentiment_graph (NodeKey.node "check_followup") s =
      resolveLabel followupEdgeMap
        (route_by_iteration (applyAgentUpdate s (check_need_followup s)))
        (applyAgentUpdate s (check_need_followup s)) ["check_followup"] := rfl

lemma execStep_analyze_eq (s : AgentState) :
    execStep create_sentiment_graph (NodeKey.node "analyze_sentiment") s =
      resolveLabel sentimentEdgeMap
        (route_by_sentiment (applyAgentUpdate s (analyze_sentiment s)))
        (applyAgentUpdate s (analyze_sentiment s)) ["analyze_sentiment"] := rfl

lemma invoke_sentiment_eq (s0 : AgentState) :
    invoke create_sentiment_graph 25 s0 =
      stepCont (execFrom create_sentiment_graph 23) []
        (resolveLabel sentimentEdgeMap
          (route_by_sentiment (applyAgentUpdate s0 (analyze_sentiment s0)))
          (applyAgentUpdate s0 (analyze_sentiment s0)) ["analyze_sentiment"]) := rfl

lemma analyze_sentiment_eq_pos (s : AgentState)
    (h : countContained negative_words (pyLower s.input) <
         countContained positive_words (pyLower s.input)) :
    analyze_sentiment s =
      { sentiment := some "positive", sentiment_history := some ["positive"],
        iteration_count := some 1 } := by
  simp only [analyze_sentiment]
  split
  · rfl
  · next h' => exact absurd h h'

lemma analyze_sentiment_eq_neg (s : AgentState)
    (h : countContained positive_words (pyLower s.input) <
         countContained negative_words (pyLower s.input)) :
    analyze_sentiment s =
      { sentiment := some "negative", sentiment_history := some ["negative"],
        iteration_count := some 1 } := by
  simp only [analyze_sentiment]
  rw [if_neg (Nat.lt_asymm h), if_pos h]

lemma analyze_sentiment_eq_neu (s : AgentState)
    (h : countContained positive_words (pyLower s.input) =
         countContained negative_words (pyLower s.input)) :
    analyze_sentiment s =
      { sentiment := some "neutral", sentiment_history := some ["neutral"],
        iteration_count := some 1 } := by
  simp only [analyze_sentiment]
  rw [if_neg (by omega), if_neg (by omega)]

lemma count_negative_zero (s : String)
    (h2 : ∀ w ∈ negative_words, containsWord (pyLower s) w = false) :
    countContained negative_words (pyLower s) = 0 := by
  simp only [countContained]
  rw [List.length_eq_zero, List.filter_eq_nil_iff]
  intro w hw
  simp [h2 w hw]

lemma count_positive_pos (s : String)
    (h1 : containsWord (pyLower s) "great" = true) :
    0 < countContained positive_words (pyLower s) := by
  simp only [countContained]
  have hmem : "great" ∈ positive_words.filter (fun w => containsWord (pyLower s) w) := by
    rw [List.mem_filter]
    exact ⟨by decide, h1⟩
  exact List.length_pos.mpr (List.ne_nil_of_mem hmem)

lemma execFrom_in_cycle {σ υ : Type} (g : GraphDefinition σ υ) (C : List NodeKey)
    (hC : ∀ k ∈ C, k ≠ NodeKey.END)
    (hstep : ∀ k ∈ C, ∀ s : σ, ∃ nxt s' vis,
      execStep g k s = StepOutcome.next nxt s' vis ∧ nxt ∈ C)
    (fuel : Nat) :
    ∀ cur ∈ C, ∀ (s : σ) (tr : List String),
      ∃ tr' fin, execFrom g fuel cur s tr = ExecResult.stepBudgetExceeded tr' fin := by
  induction fuel with
  | zero =>
    intro cur hcur s tr
    refine ⟨tr.reverse, s, ?_⟩
    unfold execFrom
    rw [if_neg (hC cur hcur)]
  | succ n ih =>
    intro cur hcur s tr
    obtain ⟨nxt, s', vis, he, hnxt⟩ := hstep cur hcur s
    obtain ⟨tr', fin, h1⟩ := ih nxt hnxt s' (vis ++ tr)
    refine ⟨tr', fin, ?_⟩
    unfold execFrom
    rw [if_neg (hC cur hcur)]
    show stepCont (execFrom g n) tr (execStep g cur s) = _
    rw [he]
    exact h1

/-! ## Claim theorems -/

/-- Claim C2: for every state snapshot s, check_need_followup returns the
full state as its partial update, and merging that update through the
declared reducers yields iteration_count incremented by one and both
history lists concatenated with themselves. -/
theorem check_followup_reapplies_reducers (s : AgentState) :
    check_need_followup s =
      { input := some s.input, sentiment := some s.sentiment,
        response := some s.response,
        sentiment_history := some s.sentiment_history,
        response_history := some s.response_history,
        iteration_count := some s.iteration_count } ∧
    applyAgentUpdate s (check_need_followup s) =
      { s with iteration_count := s.iteration_count + 1,
               sentiment_history := s.sentiment_history ++ s.sentiment_history,
               response_history := s.response_history ++ s.response_history } :=
  ⟨rfl, rfl⟩

/-- Claim C3: the increment_counter reducer returns old + 1 for every old
value and every proposed new value; the numeric content of the proposed
value is ignored. -/
theorem increment_counter_ignores_new_value (old new : Int) :
    increment_counter old new = old + 1 := rfl

/-- Claim C4: the list reducer is concatenation with the old elements
first, and it never drops elements of the old value. -/
theorem listAdd_is_concatenation (a b : List String) :
    listAdd a b = a ++ b ∧ ∀ x ∈ a, x ∈ listAdd a b := by
  refine ⟨rfl, ?_⟩
  intro x hx
  show x ∈ a ++ b
  exact List.mem_append_left b hx

/-- Claim C4 witness: the reducer applied at a concrete input keeps the
old element. -/
theorem listAdd_is_concatenation_witness :
    "a" ∈ ["a"] ∧ "a" ∈ listAdd ["a"] ["b"] :=
  ⟨List.mem_singleton_self _,
    (listAdd_is_concatenation ["a"] ["b"]).2 "a" (List.mem_singleton_self _)⟩

/-- Claim C1 counterexample: on the concrete spec input the compiled
sentiment graph does terminate at END after the three claimed node visits
in the claimed order with sentiment positive, but the final state has
iteration_count 2 and sentiment_history with two entries, refuting the
claimed values 1 and a singleton history. -/
theorem sentiment_graph_claimed_run_refuted :
    invoke create_sentiment_graph 25 (initialAgentState "This is a great product!") =
      ExecResult.done ["analyze_sentiment", "handle_positive", "check_followup"]
        c1FinalState ∧
    c1FinalState.iteration_count ≠ 1 ∧
    c1FinalState.sentiment_history ≠ ["positive"] := by
  refine ⟨by rfl, by decide, by decide⟩

/-- Claim C1 (amended): invoking the compiled sentiment graph on an
initial state whose input contains great and no negative keyword, with
empty histories and iteration_count 0, terminates at END after exactly 3
node visits in the order analyze_sentiment, handle_positive,
check_followup, and the final state satisfies sentiment positive,
sentiment_history with positive twice, and iteration_count 2 (the
check_followup node resubmits the whole state, so the reducers are
applied again). -/
theorem sentiment_graph_great_run (s : String)
    (h1 : containsWord (pyLower s) "great" = true)
    (h2 : ∀ w ∈ negative_words, containsWord (pyLower s) w = false) :
    invoke create_sentiment_graph 25 (initialAgentState s) =
      ExecResult.done ["analyze_sentiment", "handle_positive", "check_followup"]
        { input := s, sentiment := "positive", response := positiveResponse,
          sentiment_history := ["positive", "positive"],
          response_history := [positiveResponse, positiveResponse],
          iteration_count := 2 } := by
  have hneg := count_negative_zero s h2
  have hpos := count_positive_pos s h1
  have ha : analyze_sentiment (initialAgentState s) =
      { sentiment := some "positive", sentiment_history := some ["positive"],
        iteration_count := some 1 } := by
    refine analyze_sentiment_eq_pos _ ?_
    show countContained negative_words (pyLower s) <
      countContained positive_words (pyLower s)
    rw [hneg]
    exact hpos
  rw [invoke_sentiment_eq, ha]
  rfl

/-- Claim C1 witness: the amended run theorem applied at the concrete
spec input. -/
theorem sentiment_graph_great_run_witness :
    containsWord (pyLower "This is a great product!") "great" = true ∧
    invoke create_sentiment_graph 25 (initialAgentState "This is a great product!") =
      ExecResult.done ["analyze_sentiment", "handle_positive", "check_followup"]
        { input := "This is a great product!", sentiment := "positive",
          response := positiveResponse,
          sentiment_history := ["positive", "positive"],
          response_history := [positiveResponse, positiveResponse],
          iteration_count := 2 } :=
  ⟨by decide,
    sentiment_graph_great_run "This is a great product!" (by decide) (by decide)⟩

/-- Claim C5: for every graph and every set of node keys C closed under
one traversal step, not containing END and containing the entry, every
invoke call returns stepBudgetExceeded within the budget, an outcome
distinct from every END-terminated done result; it never runs forever
(execFrom is a total function). -/
theorem cyclic_graph_step_budget {σ υ : Type} (g : GraphDefinition σ υ)
    (C : List NodeKey)
    (hC : ∀ k ∈ C, k ≠ NodeKey.END)
    (hstep : ∀ k ∈ C, ∀ s : σ, ∃ nxt s' vis,
      execStep g k s = StepOutcome.next nxt s' vis ∧ nxt ∈ C)
    (hentry : g.entry ∈ C) (budget : Nat) (s : σ) :
    ∃ tr fin, invoke g budget s = ExecResult.stepBudgetExceeded tr fin ∧
      ∀ tr2 fin2, ExecResult.stepBudgetExceeded tr fin ≠ ExecResult.done tr2 fin2 := by
  obtain ⟨tr, fin, h⟩ := execFrom_in_cycle g C hC hstep budget g.entry hentry s []
  exact ⟨tr, fin, h, fun tr2 fin2 hx => ExecResult.noConfusion hx⟩

/-- Claim C5 witness: the budget theorem applied to the concrete one-node
loop graph with budget 5. -/
theorem cyclic_graph_step_budget_witness :
    ∃ tr fin, invoke loopGraph 5 (0 : Int) = ExecResult.stepBudgetExceeded tr fin ∧
      ∀ tr2 fin2, ExecResult.stepBudgetExceeded tr fin ≠ ExecResult.done tr2 fin2 :=
  cyclic_graph_step_budget loopGraph [NodeKey.node "a"]
    (by
      intro k hk
      rw [List.mem_singleton] at hk
      subst hk
      decide)
    (by
      intro k hk s
      rw [List.mem_singleton] at hk
      subst hk
      exact ⟨NodeKey.node "a", s, ["a"], rfl, List.mem_singleton_self _⟩)
    (List.mem_singleton_self _) 5 0

/-- Claim C6: compiling a graph definition in which a conditional edge
mapping omits a label of the declared router codomain fails at
validation time, before any invoke call is executed. -/
theorem missing_label_fails_validation {σ υ : Type} (g : GraphDefinition σ υ)
    (src : NodeKey) (e : CondEdge σ) (l : String)
    (hmem : (src, EdgeTarget.conditional e) ∈ g.edges)
    (hl : l ∈ e.routerLabels)
    (hmissing : e.labelToNode.find? (fun q => q.1 == l) = none) :
    compileGraph g = CompileResult.validationError := by
  have hfalse : validateGraph g = false := by
    rw [Bool.eq_false_iff]
    intro hval
    simp only [validateGraph, List.all_eq_true] at hval
    have h := hval (src, EdgeTarget.conditional e) hmem
    simp only [Bool.and_eq_true, List.all_eq_true] at h
    have h2 := h.1 l hl
    rw [hmissing] at h2
    exact Bool.noConfusion h2
  unfold compileGraph
  rw [hfalse]
  rfl

/-- Claim C6 witness: the validation theorem applied to the concrete
graph whose conditional edge omits the label y. -/
theorem missing_label_fails_validation_witness :
    "y" ∈ brokenEdge.routerLabels ∧
    brokenEdge.labelToNode.find? (fun q => q.1 == "y") = none ∧
    compileGraph brokenGraph = CompileResult.validationError :=
  ⟨by decide, by rfl,
    missing_label_fails_validation brokenGraph (NodeKey.node "a") brokenEdge "y"
      (List.mem_cons_of_mem _ (List.mem_cons_self _ _)) (by decide) (by rfl)⟩

/-- Claim C7: for every state snapshot, route_by_iteration returns the
exit label end regardless of iteration_count, so processing the
check_followup node always proceeds to END and the reanalyze edge back to
analyze_sentiment is never taken. -/
theorem route_by_iteration_always_end (s : AgentState) :
    route_by_iteration s = "end" ∧
    execStep create_sentiment_graph (NodeKey.node "check_followup") s =
      StepOutcome.next NodeKey.END (applyAgentUpdate s (check_need_followup s))
        ["check_followup"] := by
  refine ⟨route_by_iteration_eq s, ?_⟩
  rw [execStep_check_followup_eq, route_by_iteration_eq]
  rfl

/-- Claim C8: for every input string whose stripped, lowercased form is
not one of the recognized affirmative forms, the answer validator
parse_answer returns NO, including strings matching neither the
affirmative nor the negative forms. -/
theorem parse_answer_defaults_to_no (v : String)
    (h : pyLower (pyStrip v) ∉ (["yes", "y", "true", "1"] : List String)) :
    parse_answer v = YesNoEnum.NO := by
  simp only [parse_answer]
  rw [if_neg h]
  split <;> rfl

/-- Claim C8 witness: the defaulting theorem applied at a string matching
none of the recognized forms. -/
theorem parse_answer_defaults_to_no_witness :
    pyLower (pyStrip "maybe") ∉ (["yes", "y", "true", "1"] : List String) ∧
    parse_answer "maybe" = YesNoEnum.NO :=
  ⟨by decide, parse_answer_defaults_to_no "maybe" (by decide)⟩

/-- Claim C9: for every failure of the internal chain invocation,
ask_question_node returns a complete update with answer NO, raw_response
error and a result message recording the error, and route_by_response
routes that state to the negative path. -/
theorem ask_question_node_error_branch (e : String) (s : QuestionState) :
    ask_question_node (Except.error e) s =
      { question := s.question, raw_response := "error",
        parsed_response := { answer := YesNoEnum.NO }, action_taken := "",
        result_message := "Error occurred: " ++ e } ∧
    route_by_response (ask_question_node (Except.error e) s) = "negative" :=
  ⟨rfl, rfl⟩

/-- Claim C10: analyze_sentiment always emits one of the labels positive,
negative, neutral, chosen by comparing the keyword counts; every one of
these labels has an entry in the conditional edge mapping out of
analyze_sentiment, and routing after that node never fails with an
unmapped label. -/
theorem analyze_sentiment_total_routing (s : AgentState) :
    ((analyze_sentiment s).sentiment = some "positive" ∨
     (analyze_sentiment s).sentiment = some "negative" ∨
     (analyze_sentiment s).sentiment = some "neutral") ∧
    (countContained negative_words (pyLower s.input) <
       countContained positive_words (pyLower s.input) →
      (analyze_sentiment s).sentiment = some "positive") ∧
    (countContained positive_words (pyLower s.input) <
       countContained negative_words (pyLower s.input) →
      (analyze_sentiment s).sentiment = some "negative") ∧
    (countContained positive_words (pyLower s.input) =
       countContained negative_words (pyLower s.input) →
      (analyze_sentiment s).sentiment = some "neutral") ∧
    (sentimentEdgeMap.find? (fun p => p.1 == "positive")).isSome = true ∧
    (sentimentEdgeMap.find? (fun p => p.1 == "negative")).isSome = true ∧
    (sentimentEdgeMap.find? (fun p => p.1 == "neutral")).isSome = true ∧
    (∀ l : String, execStep create_sentiment_graph (NodeKey.node "analyze_sentiment") s ≠
      StepOutcome.routingError l) := by
  refine ⟨?_, ?_, ?_, ?_, rfl, rfl, rfl, ?_⟩
  · rcases Nat.lt_trichotomy (countContained positive_words (pyLower s.input))
      (countContained negative_words (pyLower s.input)) with h | h | h
    · exact Or.inr (Or.inl (by rw [analyze_sentiment_eq_neg s h]))
    · exact Or.inr (Or.inr (by rw [analyze_sentiment_eq_neu s h]))
    · exact Or.inl (by rw [analyze_sentiment_eq_pos s h])
  · intro h
    rw [analyze_sentiment_eq_pos s h]
  · intro h
    rw [analyze_sentiment_eq_neg s h]
  · intro h
    rw [analyze_sentiment_eq_neu s h]
  · intro l hx
    rcases Nat.lt_trichotomy (countContained positive_words (pyLower s.input))
      (countContained negative_words (pyLower s.input)) with h | h | h
    · rw [execStep_analyze_eq, analyze_sentiment_eq_neg s h] at hx
      exact StepOutcome.noConfusion hx
    · rw [execStep_analyze_eq, analyze_sentiment_eq_neu s h] at hx
      exact StepOutcome.noConfusion hx
    · rw [execStep_analyze_eq, analyze_sentiment_eq_pos s h] at hx
      exact StepOutcome.noConfusion hx

/-- Claim C10 witness: the totality theorem applied at a concrete state
with a positive input. -/
theorem analyze_sentiment_total_routing_witness :
    (analyze_sentiment (initialAgentState "great")).sentiment = some "positive" :=
  (analyze_sentiment_total_routing (initialAgentState "great")).2.1 (by decide)
